import Mathlib

/-!
Shallow embedding of `src/content_developer/orchestrator/orchestrator.py`
(`ContentDeveloperOrchestrator`): phase-selector parsing, phase gating,
headless Phase-1 proposal validation, Phase-2/3/4 outcome handling,
apply-vs-preview file effects, and working-directory normalization.

External collaborators (the LLM oracle, processors, confirmators, console
display) are modelled as inputs: each phase body's outcome, including any
exception it raises anywhere inside the phase's `try` block, is supplied as
an `Except` value to the phase function.  The file system is an association
list, newest write first, and every write is also appended to a
chronological log so that ordering claims are expressible.  Python floats
are modelled as rationals, Python `dict.get` defaults by `Option`.
-/

namespace ContentDeveloper

/-- Python truthiness of an optional string (`None` and `""` are falsy). -/
def pyTruthy : Option String → Bool
  | none => false
  | some s => !(s == "")

/-- Numeric value of an ASCII digit character (Python `int(c)` for a digit `c`). -/
def digitVal (c : Char) : Nat := c.toNat - 48

/-- Python `str.isdigit()` restricted to ASCII: nonempty and all digits. -/
def pyIsdigit (s : String) : Bool := (!s.data.isEmpty) && s.data.all Char.isDigit

/-- Python `int(s)` on a digit string: base-10 value. -/
def pyInt (s : String) : Nat := s.data.foldl (fun a c => 10 * a + digitVal c) 0

/-- Modelled from the spec: the `constants` module (`MAX_PHASES`) is not part
of the provided source; the spec says the literal selector "all" "maps to the
system's highest defined phase number", and the system has four phases. -/
def MAX_PHASES : Nat := 4

/-- The run configuration fields consumed by the orchestrator's control flow. -/
structure Config where
  phases : String
  auto_confirm : Bool
  apply_changes : Bool
  skip_toc : Bool
  deriving DecidableEq

/-- `_parse_max_phase` (orchestrator.py, lines 79-90). -/
def parse_max_phase (phases : String) : Nat :=
  if phases = "all" then MAX_PHASES
  else if pyIsdigit phases then pyInt phases
  else if phases.data.any Char.isDigit then
    ((phases.data.filter Char.isDigit).map digitVal).foldl Nat.max 0
  else 1

/-- The oracle's directory proposal dict: `working_directory`, `justification`,
`confidence`, and an optional `error` message; absent keys are `none`. -/
structure Proposal where
  working_directory : Option String
  justification : String
  confidence : Option ℚ
  error : Option String
  deriving DecidableEq

/-- `_detect_directory` (lines 171-183): oracle success yields
`(proposal, False, "")`, an oracle exception is caught and yields
`(None, True, message)`. -/
def detect_directory (o : Except String Proposal) : Option Proposal × Bool × String :=
  match o with
  | Except.ok p => (some p, false, "")
  | Except.error e => (none, true, e)

/-- The auto-confirm validation block of `_execute_phase1` (lines 136-151);
`Except.error` models the `RuntimeError` raises that abort the whole run. -/
def phase1_auto_confirm (auto_confirm : Bool) (llm_result : Option Proposal)
    (llm_failed : Bool) (error : String) : Except String Unit :=
  if auto_confirm then
    if llm_failed then
      Except.error ("Auto-confirm enabled but LLM failed: " ++ error)
    else
      match llm_result with
      | none => Except.error "AttributeError"
      | some p =>
        if pyTruthy p.working_directory = false then
          Except.error ("Auto-confirm enabled but directory selection failed: " ++
            (p.error.getD "LLM returned empty directory"))
        else if p.confidence.getD 0 < (7 / 10 : ℚ) then
          Except.error "Auto-confirm enabled but confidence too low"
        else Except.ok ()
  else Except.ok ()

/-- Headless Phase-1 proposal validation: the oracle call (`_detect_directory`)
followed by the auto-confirm block with `auto_confirm = True`. -/
def phase1_headless_check (o : Except String Proposal) : Except String Unit :=
  let t := detect_directory o
  phase1_auto_confirm true t.1 t.2.1 t.2.2

/-- Python strings as character sequences, used where structural string
reasoning is needed. -/
abbrev PyStr := List Char

/-- `_normalize_working_directory` (lines 483-489): strip a leading
`"<repo-name>/"` once, via `startswith` and slicing from index
`len(repo_name) + 1`. -/
def normalize_working_directory (repo_name working_dir : PyStr) : PyStr :=
  if (repo_name ++ ['/']).isPrefixOf working_dir then
    working_dir.drop (repo_name.length + 1)
  else working_dir

/-- One CREATE/UPDATE decision inside a strategy. -/
inductive ActionTag
  | CREATE
  | UPDATE
  deriving DecidableEq

structure Decision where
  action : ActionTag
  filename : String
  deriving DecidableEq

/-- The strategy object threaded through Phase 2: a confidence, a decision
list, a summary, and an optional carried error. -/
structure ContentStrategy where
  confidence : ℚ
  decisions : List Decision
  summary : String
  error : Option String
  deriving DecidableEq

/-- Modelled from the spec: `StrategyConfirmation.confirm(None, True, error)`
(module `interactive.strategy`, not under the provided source) substitutes
"an explicit failure-strategy object (confidence 0, carrying the error)". -/
def failureStrategy (error : String) : ContentStrategy :=
  { confidence := 0, decisions := [], summary := "", error := some error }

/-- One entry of `create_results` / `update_results`: `success`, optional
`content` / `updated_content`, and the originating action's filename
(`result['action'].get('filename', '')`). -/
structure GenResult where
  success : Bool
  content : Option String
  updated_content : Option String
  action_filename : String
  deriving DecidableEq

/-- The `generation_results` mapping of Phase 3. -/
structure GenResults where
  create_results : List GenResult
  update_results : List GenResult
  created_files : List String
  updated_files : List String
  applied : Option Bool
  deriving DecidableEq

/-- The `toc_results` mapping of Phase 4, with `dict.get` defaults folded in
(`success`/`changes_made` truthiness as `Bool`, `content` defaulting to `""`). -/
structure TocResults where
  success : Bool
  changes_made : Bool
  entries_added : List String
  content : String
  message : String
  applied : Option Bool
  deriving DecidableEq

/-- The `Result` record accumulated across phases. -/
structure Result where
  working_directory : String
  justification : String
  confidence : ℚ
  directory_ready : Bool
  working_directory_full_path : Option String
  setup_error : Option String
  content_strategy : Option ContentStrategy
  strategy_ready : Bool
  generation_results : Option GenResults
  generation_ready : Bool
  toc_results : Option TocResults
  toc_ready : Bool
  deriving DecidableEq

/-- File system: newest write first; lookup takes the first match. -/
abbrev FS := List (String × String)

def fsGet (fs : FS) (p : String) : Option String :=
  (fs.find? (fun e => e.1 == p)).map (fun e => e.2)

/-- A world: file contents plus a chronological write log. -/
structure World where
  fs : FS
  log : List (String × String)
  deriving DecidableEq

/-- Modelled from the spec: `utils.write` (not under the provided source)
replaces the file at `p` wholesale with content `c`; the write is logged. -/
def wWrite (w : World) (p c : String) : World :=
  { fs := (p, c) :: w.fs, log := w.log ++ [(p, c)] }

/-- `pathlib` joining as used here (`working_dir_path / filename`): an empty
segment is dropped, an absolute segment replaces the left side. -/
def pathJoin (d f : String) : String :=
  if f = "" then d else if f.data.head? = some '/' then f else d ++ "/" ++ f

/-- `_execute_phase2` plus `_handle_phase2_error` (lines 202-273, 300-311).
The `Except` input is the outcome of the try body (discovery, strategy
generation, confirmation — any exception raised inside is `Except.error`):
on success `strategy_ready := confidence > 0`, on a caught exception the
failure strategy is substituted and `strategy_ready := False`. -/
def execute_phase2 (o : Except String ContentStrategy) (r : Result) : Result :=
  match o with
  | Except.ok s =>
      { r with content_strategy := some s, strategy_ready := decide (0 < s.confidence) }
  | Except.error e =>
      { r with content_strategy := some (failureStrategy e), strategy_ready := false }

/-- `_create_file` (lines 434-444): join, `mkdir` (a no-op on this flat file
model) and write of `result['content']`. -/
def create_file (w : World) (wd : String) (res : GenResult) : World :=
  wWrite w (pathJoin wd res.action_filename) (res.content.getD "")

/-- `_apply_create_actions` (lines 428-432). -/
def apply_create_actions (w : World) (create_results : List GenResult) (wd : String) : World :=
  create_results.foldl
    (fun w res => if res.success && pyTruthy res.content then create_file w wd res else w) w

/-- `_update_file` (lines 452-459). -/
def update_file (w : World) (wd : String) (res : GenResult) : World :=
  wWrite w (pathJoin wd res.action_filename) (res.updated_content.getD "")

/-- `_apply_update_actions` (lines 446-450). -/
def apply_update_actions (w : World) (update_results : List GenResult) (wd : String) : World :=
  update_results.foldl
    (fun w res => if res.success && pyTruthy res.updated_content then update_file w wd res else w) w

/-- `_apply_generated_content` (lines 416-426): CREATE actions first, then
UPDATE actions. -/
def apply_generated_content (w : World) (g : GenResults) (wd : String) : World :=
  apply_update_actions (apply_create_actions w g.create_results wd) g.update_results wd

/-- `_execute_phase3` plus `_handle_phase3_error` (lines 313-381, 406-414):
on a caught exception `generation_results := None`, `generation_ready := False`;
on success the results are stored, `generation_ready := True`, and the apply
step runs iff `apply_changes`, annotating `applied` accordingly. -/
def execute_phase3 (o : Except String GenResults) (apply_changes : Bool) (wd : String)
    (w : World) (r : Result) : World × Result :=
  match o with
  | Except.error _ => (w, { r with generation_results := none, generation_ready := false })
  | Except.ok g =>
      if apply_changes then
        (apply_generated_content w g wd,
         { r with generation_results := some { g with applied := some true },
                  generation_ready := true })
      else
        (w, { r with generation_results := some { g with applied := some false },
                     generation_ready := true })

/-- The write event a successful CREATE entry produces, if any. -/
def createEvent (wd : String) (res : GenResult) : Option (String × String) :=
  if res.success && pyTruthy res.content then
    some (pathJoin wd res.action_filename, res.content.getD "")
  else none

/-- The write event a successful UPDATE entry produces, if any. -/
def updateEvent (wd : String) (res : GenResult) : Option (String × String) :=
  if res.success && pyTruthy res.updated_content then
    some (pathJoin wd res.action_filename, res.updated_content.getD "")
  else none

/-- The chronological write sequence of the Phase-3 apply step. -/
def applyTrace (g : GenResults) (wd : String) : List (String × String) :=
  g.create_results.filterMap (createEvent wd) ++ g.update_results.filterMap (updateEvent wd)

/-- The content of the last write to path `p` in a write sequence, if any. -/
def lastWriteTo (tr : List (String × String)) (p : String) : Option String :=
  (tr.reverse.find? (fun e => e.1 == p)).map (fun e => e.2)

/-- `_apply_toc_changes` (lines 606-626): write `TOC.yml` wholesale with the
returned content, unless that content is empty (then log and return). -/
def apply_toc_changes (w : World) (toc_results : TocResults) (wd : String) : World :=
  if toc_results.content = "" then w
  else wWrite w (pathJoin wd "TOC.yml") toc_results.content

/-- `_execute_phase4` plus `_handle_phase4_error` (lines 518-590, 628-636):
on a caught exception `toc_results := None`, `toc_ready := False`; otherwise
apply iff `apply_changes and success and changes_made`, annotate `applied`,
and set `toc_ready := True` unconditionally. -/
def execute_phase4 (o : Except String TocResults) (apply_changes : Bool) (wd : String)
    (w : World) (r : Result) : World × Result :=
  match o with
  | Except.error _ => (w, { r with toc_results := none, toc_ready := false })
  | Except.ok tr =>
      if apply_changes && tr.success && tr.changes_made then
        (apply_toc_changes w tr wd,
         { r with toc_results := some { tr with applied := some true }, toc_ready := true })
      else
        (w, { r with toc_results := some { tr with applied := some false }, toc_ready := true })

/-- `Path(result.working_directory_full_path)` as a string. -/
def wdOf (r : Result) : String := r.working_directory_full_path.getD ""

/-- The Phase-2 step of `execute` (lines 60-62), with the `[2]` trace marker
recording that the phase ran. -/
def stage2 (cfg : Config) (o2 : Except String ContentStrategy) (r1 : Result) :
    Result × List Nat :=
  if 2 ≤ parse_max_phase cfg.phases ∧ r1.directory_ready = true then
    (execute_phase2 o2 r1, [2])
  else (r1, [])

/-- The Phase-3 step of `execute` (lines 64-66). -/
def stage3 (cfg : Config) (o3 : Except String GenResults) (w : World) (r2 : Result) :
    World × Result × List Nat :=
  if 3 ≤ parse_max_phase cfg.phases ∧ r2.strategy_ready = true then
    let p := execute_phase3 o3 cfg.apply_changes (wdOf r2) w r2
    (p.1, p.2, [3])
  else (w, r2, [])

/-- The Phase-4 step of `execute` (lines 68-75); the `skip_toc` elif branch
only logs, so it contributes no run marker and no state change. -/
def stage4 (cfg : Config) (o4 : Except String TocResults) (w : World) (r3 : Result) :
    World × Result × List Nat :=
  if 4 ≤ parse_max_phase cfg.phases ∧ r3.generation_ready = true ∧ cfg.skip_toc = false then
    let p := execute_phase4 o4 cfg.apply_changes (wdOf r3) w r3
    (p.1, p.2, [4])
  else (w, r3, [])

structure ExecOut where
  world : World
  result : Result
  ran : List Nat

/-- `execute` (lines 50-77), instrumented with the list of phases (≥ 2) that
actually ran; `r1` is the Result returned by Phase 1. -/
def execute (cfg : Config) (r1 : Result) (o2 : Except String ContentStrategy)
    (o3 : Except String GenResults) (o4 : Except String TocResults) (w : World) : ExecOut :=
  let s2 := stage2 cfg o2 r1
  let s3 := stage3 cfg o3 w s2.1
  let s4 := stage4 cfg o4 s3.1 s3.2.1
  ⟨s4.1, s4.2.1, s2.2 ++ s3.2.2 ++ s4.2.2⟩

/-! ## Helper lemmas -/

lemma le_foldl_max (l : List Nat) (a : Nat) : a ≤ l.foldl Nat.max a := by
  induction l generalizing a with
  | nil => exact Nat.le_refl a
  | cons x xs ih => exact Nat.le_trans (Nat.le_max_left a x) (ih (Nat.max a x))

lemma foldl_max_ge (l : List Nat) (a : Nat) : ∀ x ∈ l, x ≤ l.foldl Nat.max a := by
  induction l generalizing a with
  | nil => intro x hx; cases hx
  | cons y ys ih =>
      intro x hx
      cases hx with
      | head => exact Nat.le_trans (Nat.le_max_right a _) (le_foldl_max ys _)
      | tail _ h => exact ih _ x h

lemma foldl_max_eq_or_mem (l : List Nat) (a : Nat) :
    l.foldl Nat.max a = a ∨ l.foldl Nat.max a ∈ l := by
  induction l generalizing a with
  | nil => exact Or.inl rfl
  | cons y ys ih =>
      rw [List.foldl_cons]
      rcases ih (Nat.max a y) with h | h
      · rw [h]
        rcases Nat.le_total a y with hay | hya
        · right
          have hma : Nat.max a y = y := Nat.max_eq_right hay
          rw [hma]; exact List.mem_cons_self _ _
        · left; exact Nat.max_eq_left hya
      · right; exact List.mem_cons_of_mem _ h

lemma apply_create_actions_spec (create_results : List GenResult) (w : World) (wd : String) :
    apply_create_actions w create_results wd =
      { fs := (create_results.filterMap (createEvent wd)).reverse ++ w.fs,
        log := w.log ++ create_results.filterMap (createEvent wd) } := by
  induction create_results generalizing w with
  | nil => simp [apply_create_actions]
  | cons res rest ih =>
      simp only [apply_create_actions, List.foldl_cons] at ih ⊢
      by_cases h : (res.success && pyTruthy res.content) = true
      · rw [if_pos h, ih (create_file w wd res)]
        simp [create_file, wWrite, createEvent, h, List.filterMap_cons]
      · rw [if_neg h, ih w]
        simp [createEvent, h, List.filterMap_cons]

lemma apply_update_actions_spec (update_results : List GenResult) (w : World) (wd : String) :
    apply_update_actions w update_results wd =
      { fs := (update_results.filterMap (updateEvent wd)).reverse ++ w.fs,
        log := w.log ++ update_results.filterMap (updateEvent wd) } := by
  induction update_results generalizing w with
  | nil => simp [apply_update_actions]
  | cons res rest ih =>
      simp only [apply_update_actions, List.foldl_cons] at ih ⊢
      by_cases h : (res.success && pyTruthy res.updated_content) = true
      · rw [if_pos h, ih (update_file w wd res)]
        simp [update_file, wWrite, updateEvent, h, List.filterMap_cons]
      · rw [if_neg h, ih w]
        simp [updateEvent, h, List.filterMap_cons]

lemma apply_generated_content_spec (g : GenResults) (w : World) (wd : String) :
    apply_generated_content w g wd =
      { fs := (applyTrace g wd).reverse ++ w.fs, log := w.log ++ applyTrace g wd } := by
  rw [apply_generated_content, apply_create_actions_spec, apply_update_actions_spec]
  simp [applyTrace, List.reverse_append, List.append_assoc]

lemma find?_append_of_some {α : Type} (q : α → Bool) (l₁ l₂ : List α) (e : α)
    (h : l₁.find? q = some e) : (l₁ ++ l₂).find? q = some e := by
  induction l₁ with
  | nil => simp [List.find?] at h
  | cons x xs ih =>
      by_cases hq : q x = true
      · rw [List.find?_cons_of_pos _ hq] at h
        rw [List.cons_append, List.find?_cons_of_pos _ hq]
        exact h
      · rw [List.find?_cons_of_neg _ (by simpa using hq)] at h
        rw [List.cons_append, List.find?_cons_of_neg _ (by simpa using hq)]
        exact ih h

lemma fsGet_of_lastWriteTo (tr : List (String × String)) (fs : FS) (p c : String)
    (h : lastWriteTo tr p = some c) : fsGet (tr.reverse ++ fs) p = some c := by
  unfold lastWriteTo at h
  obtain ⟨e, he, hc⟩ := Option.map_eq_some'.mp h
  unfold fsGet
  rw [find?_append_of_some _ _ _ _ he]
  simp [hc]

lemma ran_split (cfg : Config) (r1 : Result) (o2 : Except String ContentStrategy)
    (o3 : Except String GenResults) (o4 : Except String TocResults) (w : World) :
    (execute cfg r1 o2 o3 o4 w).ran =
      (stage2 cfg o2 r1).2 ++
        (stage3 cfg o3 w (stage2 cfg o2 r1).1).2.2 ++
        (stage4 cfg o4 (stage3 cfg o3 w (stage2 cfg o2 r1).1).1
          (stage3 cfg o3 w (stage2 cfg o2 r1).1).2.1).2.2 := rfl

lemma stage2_ran_sub (cfg : Config) (o2 : Except String ContentStrategy) (r1 : Result) :
    (stage2 cfg o2 r1).2 = [2] ∨ (stage2 cfg o2 r1).2 = [] := by
  unfold stage2; split
  · left; rfl
  · right; rfl

lemma stage3_ran_sub (cfg : Config) (o3 : Except String GenResults) (w : World) (r2 : Result) :
    (stage3 cfg o3 w r2).2.2 = [3] ∨ (stage3 cfg o3 w r2).2.2 = [] := by
  unfold stage3; split
  · left; rfl
  · right; rfl

lemma stage4_ran_sub (cfg : Config) (o4 : Except String TocResults) (w : World) (r3 : Result) :
    (stage4 cfg o4 w r3).2.2 = [4] ∨ (stage4 cfg o4 w r3).2.2 = [] := by
  unfold stage4; split
  · left; rfl
  · right; rfl

lemma stage2_cond_of_ran (cfg : Config) (o2 : Except String ContentStrategy) (r1 : Result)
    (h : 2 ∈ (stage2 cfg o2 r1).2) :
    2 ≤ parse_max_phase cfg.phases ∧ r1.directory_ready = true := by
  unfold stage2 at h
  split at h
  next hc => exact hc
  next => simp at h

lemma stage3_cond_of_ran (cfg : Config) (o3 : Except String GenResults) (w : World) (r2 : Result)
    (h : 3 ∈ (stage3 cfg o3 w r2).2.2) :
    3 ≤ parse_max_phase cfg.phases ∧ r2.strategy_ready = true := by
  unfold stage3 at h
  split at h
  next hc => exact hc
  next => simp at h

lemma stage4_cond_of_ran (cfg : Config) (o4 : Except String TocResults) (w : World) (r3 : Result)
    (h : 4 ∈ (stage4 cfg o4 w r3).2.2) :
    4 ≤ parse_max_phase cfg.phases ∧ r3.generation_ready = true ∧ cfg.skip_toc = false := by
  unfold stage4 at h
  split at h
  next hc => exact hc
  next => simp at h

/-! ## Sample values used by counterexamples and witnesses -/

def cfgAll : Config :=
  { phases := "all", auto_confirm := true, apply_changes := true, skip_toc := false }

/-- A Result as Phase 1 returns it: directory selected, later-phase fields at
their defaults (the spec: a readiness flag "is False until the phase
completes"). -/
def r1Sample : Result :=
  { working_directory := "docs", justification := "", confidence := 1,
    directory_ready := true, working_directory_full_path := some "/repo/docs",
    setup_error := none, content_strategy := none, strategy_ready := false,
    generation_results := none, generation_ready := false, toc_results := none,
    toc_ready := false }

def stratSample : ContentStrategy :=
  { confidence := 1, decisions := [], summary := "", error := none }

def zeroStrategy : ContentStrategy :=
  { confidence := 0, decisions := [], summary := "", error := none }

def genSample : GenResults :=
  { create_results := [], update_results := [], created_files := [],
    updated_files := [], applied := none }

def tocSample : TocResults :=
  { success := true, changes_made := false, entries_added := [], content := "x",
    message := "", applied := none }

def w0 : World := { fs := [], log := [] }

def prop70 : Proposal :=
  { working_directory := some "docs", justification := "j",
    confidence := some (7 / 10 : ℚ), error := none }

def crA : GenResult :=
  { success := true, content := some "A", updated_content := none, action_filename := "f.md" }

def urB : GenResult :=
  { success := true, content := none, updated_content := some "B", action_filename := "f.md" }

def gCex : GenResults :=
  { create_results := [crA], update_results := [urB], created_files := [],
    updated_files := [], applied := none }

def crHello : GenResult :=
  { success := true, content := some "hello", updated_content := none,
    action_filename := "new.md" }

def gWitness : GenResults :=
  { create_results := [crHello], update_results := [], created_files := [],
    updated_files := [], applied := none }

def tocCex : TocResults :=
  { success := true, changes_made := true, entries_added := [], content := "",
    message := "done", applied := none }

def tocFail : TocResults :=
  { success := false, changes_made := true, entries_added := [], content := "c",
    message := "", applied := none }

/-! ## Claim theorems -/

/-- Claim C3: for every run in which Phase 2 executes, `strategy_ready` is set
to true iff the confirmed strategy's confidence is strictly positive; a
confidence of exactly 0 and any caught exception both leave it false. -/
theorem strategy_ready_iff (o : Except String ContentStrategy) (r : Result) :
    (∀ s, o = Except.ok s →
      ((execute_phase2 o r).strategy_ready = true ↔ 0 < s.confidence)) ∧
    (∀ s, o = Except.ok s → s.confidence = 0 →
      (execute_phase2 o r).strategy_ready = false) ∧
    (∀ e, o = Except.error e → (execute_phase2 o r).strategy_ready = false) := by
  refine ⟨?_, ?_, ?_⟩
  · intro s hs; subst hs; simp [execute_phase2]
  · intro s hs h0; subst hs; simp [execute_phase2, h0]
  · intro e he; subst he; rfl

/-- Witness for C3 at concrete inputs: a strategy of confidence exactly 0 and
a phase-body exception both produce `strategy_ready = false`. -/
theorem strategy_ready_iff_witness :
    (execute_phase2 (Except.ok zeroStrategy) r1Sample).strategy_ready = false ∧
    (execute_phase2 (Except.error "ConnectionError") r1Sample).strategy_ready = false :=
  ⟨(strategy_ready_iff (Except.ok zeroStrategy) r1Sample).2.1 zeroStrategy rfl rfl,
   (strategy_ready_iff (Except.error "ConnectionError") r1Sample).2.2 "ConnectionError" rfl⟩

/-- Claim C7: the Phase-3 apply step emits exactly the successful CREATE writes
(in list order) followed by the successful UPDATE writes (in list order);
entries without `success` or without content are skipped. -/
theorem apply_order (w : World) (g : GenResults) (wd : String) :
    (apply_generated_content w g wd).log =
      w.log ++ (g.create_results.filterMap (createEvent wd) ++
        g.update_results.filterMap (updateEvent wd)) := by
  rw [apply_generated_content_spec]
  simp [applyTrace]

/-- Claim C5 counterexample: in apply mode with `success` and `changes_made`
both true but empty returned content, the orchestrator annotates
`applied=True` yet writes nothing — refuting the claimed biconditional
"(manifest overwritten with content ∧ applied=True) iff
(apply ∧ success ∧ changes_made)" at this concrete input. -/
theorem phase4_apply_counterexample :
    ¬ ((((execute_phase4 (Except.ok tocCex) true "wd" w0 r1Sample).1.log =
            [(pathJoin "wd" "TOC.yml", tocCex.content)]) ∧
        (execute_phase4 (Except.ok tocCex) true "wd" w0 r1Sample).2.toc_results =
          some { tocCex with applied := some true }) ↔
       (true && tocCex.success && tocCex.changes_made) = true) := by decide

/-- Claim C5 amended: `applied=True` iff apply mode ∧ `success` ∧
`changes_made`; the manifest `TOC.yml` is overwritten wholesale with the
returned content iff additionally that content is non-empty (empty content is
logged and skipped even though `applied=True`); otherwise nothing is written
and `applied=False`. -/
theorem phase4_apply_spec (tr : TocResults) (apply_changes : Bool) (wd : String)
    (w : World) (r : Result) :
    ((execute_phase4 (Except.ok tr) apply_changes wd w r).2.toc_results =
      some { tr with applied := some (apply_changes && tr.success && tr.changes_made) }) ∧
    ((execute_phase4 (Except.ok tr) apply_changes wd w r).1.log =
      if (apply_changes && tr.success && tr.changes_made) = true ∧ tr.content ≠ "" then
        w.log ++ [(pathJoin wd "TOC.yml", tr.content)]
      else w.log) ∧
    ((execute_phase4 (Except.ok tr) apply_changes wd w r).1.fs =
      if (apply_changes && tr.success && tr.changes_made) = true ∧ tr.content ≠ "" then
        (pathJoin wd "TOC.yml", tr.content) :: w.fs
      else w.fs) := by
  by_cases hc : (apply_changes && tr.success && tr.changes_made) = true
  · by_cases hct : tr.content = ""
    · simp [execute_phase4, apply_toc_changes, hc, hct]
    · simp [execute_phase4, apply_toc_changes, wWrite, hc, hct]
  · simp [execute_phase4, apply_toc_changes, hc]

/-- Claim C10: whenever the Phase-4 processor returns without raising,
`toc_ready` is set to true unconditionally; in particular `success=False`
coexists with `toc_ready=True` and `applied=False`. -/
theorem phase4_ready_unconditional (tr : TocResults) (apply_changes : Bool) (wd : String)
    (w : World) (r : Result) :
    (execute_phase4 (Except.ok tr) apply_changes wd w r).2.toc_ready = true ∧
    (tr.success = false →
      (execute_phase4 (Except.ok tr) apply_changes wd w r).2.toc_results =
        some { tr with applied := some false }) := by
  constructor
  · simp only [execute_phase4]
    split
    · rfl
    · rfl
  · intro hs
    have hc : (apply_changes && tr.success && tr.changes_made) = false := by
      rw [hs]; simp
    simp [execute_phase4, hc]

/-- Witness for C10 at a concrete input where the processor reports
`success=False`: `toc_ready` is still true and `applied=False`. -/
theorem phase4_ready_unconditional_witness :
    (execute_phase4 (Except.ok tocFail) true "wd" w0 r1Sample).2.toc_ready = true ∧
    (execute_phase4 (Except.ok tocFail) true "wd" w0 r1Sample).2.toc_results =
      some { tocFail with applied := some false } :=
  ⟨(phase4_ready_unconditional tocFail true "wd" w0 r1Sample).1,
   (phase4_ready_unconditional tocFail true "wd" w0 r1Sample).2 rfl⟩

/-- Claim C1: for every configuration and every outcome of the earlier phases,
Phase n (n = 2, 3, 4) executes only if the parsed max_phase is at least n and
the immediately preceding readiness flag is true at that point
(`directory_ready` for Phase 2, `strategy_ready` for Phase 3,
`generation_ready` for Phase 4); Phase 4 additionally requires the skip-TOC
flag to be unset. -/
theorem phase_gating (cfg : Config) (r1 : Result) (o2 : Except String ContentStrategy)
    (o3 : Except String GenResults) (o4 : Except String TocResults) (w : World) :
    (2 ∈ (execute cfg r1 o2 o3 o4 w).ran →
      2 ≤ parse_max_phase cfg.phases ∧ r1.directory_ready = true) ∧
    (3 ∈ (execute cfg r1 o2 o3 o4 w).ran →
      3 ≤ parse_max_phase cfg.phases ∧ (stage2 cfg o2 r1).1.strategy_ready = true) ∧
    (4 ∈ (execute cfg r1 o2 o3 o4 w).ran →
      4 ≤ parse_max_phase cfg.phases ∧
      (stage3 cfg o3 w (stage2 cfg o2 r1).1).2.1.generation_ready = true ∧
      cfg.skip_toc = false) := by
  refine ⟨?_, ?_, ?_⟩
  · intro h
    rw [ran_split] at h
    rcases List.mem_append.mp h with h | h
    · rcases List.mem_append.mp h with h | h
      · exact stage2_cond_of_ran cfg o2 r1 h
      · exfalso
        rcases stage3_ran_sub cfg o3 w (stage2 cfg o2 r1).1 with hc | hc <;>
          rw [hc] at h <;> simp at h
    · exfalso
      rcases stage4_ran_sub cfg o4 (stage3 cfg o3 w (stage2 cfg o2 r1).1).1
          (stage3 cfg o3 w (stage2 cfg o2 r1).1).2.1 with hc | hc <;>
        rw [hc] at h <;> simp at h
  · intro h
    rw [ran_split] at h
    rcases List.mem_append.mp h with h | h
    · rcases List.mem_append.mp h with h | h
      · exfalso
        rcases stage2_ran_sub cfg o2 r1 with hc | hc <;> rw [hc] at h <;> simp at h
      · exact stage3_cond_of_ran cfg o3 w (stage2 cfg o2 r1).1 h
    · exfalso
      rcases stage4_ran_sub cfg o4 (stage3 cfg o3 w (stage2 cfg o2 r1).1).1
          (stage3 cfg o3 w (stage2 cfg o2 r1).1).2.1 with hc | hc <;>
        rw [hc] at h <;> simp at h
  · intro h
    rw [ran_split] at h
    rcases List.mem_append.mp h with h | h
    · exfalso
      rcases List.mem_append.mp h with h | h
      · rcases stage2_ran_sub cfg o2 r1 with hc | hc <;> rw [hc] at h <;> simp at h
      · rcases stage3_ran_sub cfg o3 w (stage2 cfg o2 r1).1 with hc | hc <;>
          rw [hc] at h <;> simp at h
    · exact stage4_cond_of_ran cfg o4 (stage3 cfg o3 w (stage2 cfg o2 r1).1).1
        (stage3 cfg o3 w (stage2 cfg o2 r1).1).2.1 h

/-- Witness for C1: a concrete run (selector "all", all phases succeeding)
where phases 2, 3 and 4 all executed, discharging each gating hypothesis. -/
theorem phase_gating_witness :
    (2 ≤ parse_max_phase cfgAll.phases ∧ r1Sample.directory_ready = true) ∧
    (3 ≤ parse_max_phase cfgAll.phases ∧
      (stage2 cfgAll (Except.ok stratSample) r1Sample).1.strategy_ready = true) ∧
    (4 ≤ parse_max_phase cfgAll.phases ∧
      (stage3 cfgAll (Except.ok genSample) w0
        (stage2 cfgAll (Except.ok stratSample) r1Sample).1).2.1.generation_ready = true ∧
      cfgAll.skip_toc = false) := by
  have h := phase_gating cfgAll r1Sample (Except.ok stratSample) (Except.ok genSample)
    (Except.ok tocSample) w0
  exact ⟨h.1 (by decide), h.2.1 (by decide), h.2.2 (by decide)⟩

/-- Claim C6: when Phase 2 runs and its body raises, the exception is contained
at the phase boundary: the substituted failure strategy (confidence 0,
carrying the error) becomes `content_strategy`, `strategy_ready` is false, and
Phases 3 and 4 do not run.  (`hgen` records that the Phase-1 result has not
set `generation_ready`, which holds of every Result Phase 1 produces.) -/
theorem phase2_error_containment (cfg : Config) (r1 : Result) (e : String)
    (o3 : Except String GenResults) (o4 : Except String TocResults) (w : World)
    (hgen : r1.generation_ready = false)
    (hran : 2 ∈ (execute cfg r1 (Except.error e) o3 o4 w).ran) :
    (execute cfg r1 (Except.error e) o3 o4 w).result.content_strategy =
      some (failureStrategy e) ∧
    (failureStrategy e).confidence = 0 ∧
    (failureStrategy e).error = some e ∧
    (execute cfg r1 (Except.error e) o3 o4 w).result.strategy_ready = false ∧
    3 ∉ (execute cfg r1 (Except.error e) o3 o4 w).ran ∧
    4 ∉ (execute cfg r1 (Except.error e) o3 o4 w).ran := by
  have h2 : 2 ≤ parse_max_phase cfg.phases ∧ r1.directory_ready = true := by
    rw [ran_split] at hran
    rcases List.mem_append.mp hran with h | h
    · rcases List.mem_append.mp h with h | h
      · exact stage2_cond_of_ran cfg (Except.error e) r1 h
      · exfalso
        rcases stage3_ran_sub cfg o3 w (stage2 cfg (Except.error e) r1).1 with hc | hc <;>
          rw [hc] at h <;> simp at h
    · exfalso
      rcases stage4_ran_sub cfg o4 (stage3 cfg o3 w (stage2 cfg (Except.error e) r1).1).1
          (stage3 cfg o3 w (stage2 cfg (Except.error e) r1).1).2.1 with hc | hc <;>
        rw [hc] at h <;> simp at h
  have hs2 : stage2 cfg (Except.error e) r1 = (execute_phase2 (Except.error e) r1, [2]) := by
    unfold stage2; rw [if_pos h2]
  have hready : (execute_phase2 (Except.error e) r1).strategy_ready = false := rfl
  have hgen2 : (execute_phase2 (Except.error e) r1).generation_ready = r1.generation_ready := rfl
  have hs3 : stage3 cfg o3 w (execute_phase2 (Except.error e) r1) =
      (w, execute_phase2 (Except.error e) r1, []) := by
    unfold stage3
    rw [if_neg]
    intro hcon
    rw [hready] at hcon
    exact Bool.false_ne_true hcon.2
  have hs4 : stage4 cfg o4 w (execute_phase2 (Except.error e) r1) =
      (w, execute_phase2 (Except.error e) r1, []) := by
    unfold stage4
    rw [if_neg]
    intro hcon
    rw [hgen2, hgen] at hcon
    exact Bool.false_ne_true hcon.2.1
  have hex : execute cfg r1 (Except.error e) o3 o4 w =
      ⟨w, execute_phase2 (Except.error e) r1, [2]⟩ := by
    simp only [execute, hs2, hs3, hs4]
    rfl
  rw [hex]
  refine ⟨rfl, rfl, rfl, rfl, ?_, ?_⟩
  · simp
  · simp

/-- Witness for C6: a concrete run in which Phase 2 executed and its body
raised `ConnectionError`. -/
theorem phase2_error_containment_witness :
    (execute cfgAll r1Sample (Except.error "ConnectionError") (Except.ok genSample)
        (Except.ok tocSample) w0).result.content_strategy =
      some (failureStrategy "ConnectionError") ∧
    3 ∉ (execute cfgAll r1Sample (Except.error "ConnectionError") (Except.ok genSample)
        (Except.ok tocSample) w0).ran ∧
    4 ∉ (execute cfgAll r1Sample (Except.error "ConnectionError") (Except.ok genSample)
        (Except.ok tocSample) w0).ran := by
  have h := phase2_error_containment cfgAll r1Sample "ConnectionError" (Except.ok genSample)
    (Except.ok tocSample) w0 rfl (by decide)
  exact ⟨h.1, h.2.2.2.2.1, h.2.2.2.2.2⟩

/-- Claim C4: in headless (auto-confirm) mode, Phase-1 proposal validation is
fatal exactly when the oracle raised, the proposal's working-directory field
is empty or absent, or its confidence is strictly below 0.70; in particular a
proposal with confidence exactly 0.70 and a non-empty directory passes. -/
theorem phase1_headless_fatal (o : Except String Proposal) :
    ((phase1_headless_check o).isOk = false ↔
      (o.isOk = false ∨ ∃ p, o = Except.ok p ∧
        (pyTruthy p.working_directory = false ∨ p.confidence.getD 0 < (7 / 10 : ℚ)))) ∧
    (∀ p, o = Except.ok p → pyTruthy p.working_directory = true →
      p.confidence.getD 0 = (7 / 10 : ℚ) → (phase1_headless_check o).isOk = true) := by
  cases o with
  | error e =>
      refine ⟨⟨fun _ => Or.inl rfl, fun _ => rfl⟩, ?_⟩
      intro p hp
      exact Except.noConfusion hp
  | ok p =>
      refine ⟨⟨?_, ?_⟩, ?_⟩
      · intro hfail
        right
        refine ⟨p, rfl, ?_⟩
        by_cases h1 : pyTruthy p.working_directory = false
        · exact Or.inl h1
        · by_cases h2 : p.confidence.getD 0 < (7 / 10 : ℚ)
          · exact Or.inr h2
          · exfalso
            have hok : (phase1_headless_check (Except.ok p)).isOk = true := by
              simp [phase1_headless_check, detect_directory, phase1_auto_confirm,
                h1, h2, Except.isOk, Except.toBool]
            rw [hok] at hfail
            exact Bool.noConfusion hfail
      · intro hcases
        rcases hcases with hbad | ⟨p2, hp2, hcond⟩
        · simp [Except.isOk, Except.toBool] at hbad
        · injection hp2 with hpp
          subst hpp
          rcases hcond with h1 | h2
          · simp [phase1_headless_check, detect_directory, phase1_auto_confirm,
              h1, Except.isOk, Except.toBool]
          · by_cases h1 : pyTruthy p.working_directory = false
            · simp [phase1_headless_check, detect_directory, phase1_auto_confirm,
                h1, Except.isOk, Except.toBool]
            · simp [phase1_headless_check, detect_directory, phase1_auto_confirm,
                h1, h2, Except.isOk, Except.toBool]
      · intro p2 hp2 hwd hconf
        injection hp2 with hpp
        subst hpp
        simp [phase1_headless_check, detect_directory, phase1_auto_confirm,
          hwd, hconf, Except.isOk, Except.toBool]

/-- Witness for C4: a proposal with confidence exactly 0.70 and a non-empty
working directory is accepted in headless mode. -/
theorem phase1_headless_fatal_witness :
    (phase1_headless_check (Except.ok prop70)).isOk = true :=
  (phase1_headless_fatal (Except.ok prop70)).2 prop70 rfl (by decide) rfl

/-- Claim C2: the parsed max_phase equals `MAX_PHASES` for the literal "all",
the integer value for a pure digit string, the maximum digit occurring in the
string for a mixed string containing at least one digit, and 1 for a string
containing no digit. -/
theorem parse_max_phase_spec (s : String) :
    (s = "all" → parse_max_phase s = MAX_PHASES) ∧
    (s ≠ "all" → pyIsdigit s = true → parse_max_phase s = pyInt s) ∧
    (s ≠ "all" → pyIsdigit s = false → s.data.any Char.isDigit = true →
      (∃ c, c ∈ s.data ∧ c.isDigit = true ∧ parse_max_phase s = digitVal c) ∧
      (∀ c, c ∈ s.data → c.isDigit = true → digitVal c ≤ parse_max_phase s)) ∧
    (s ≠ "all" → s.data.any Char.isDigit = false → parse_max_phase s = 1) := by
  refine ⟨?_, ?_, ?_, ?_⟩
  · intro h
    rw [parse_max_phase, if_pos h]
  · intro h1 h2
    rw [parse_max_phase, if_neg h1, if_pos h2]
  · intro h1 h2 h3
    have hp : parse_max_phase s =
        ((s.data.filter Char.isDigit).map digitVal).foldl Nat.max 0 := by
      rw [parse_max_phase, if_neg h1, if_neg (by simp [h2]), if_pos h3]
    obtain ⟨c0, hc0, hd0⟩ := List.any_eq_true.mp h3
    have hmem0 : digitVal c0 ∈ (s.data.filter Char.isDigit).map digitVal :=
      List.mem_map_of_mem _ (List.mem_filter.mpr ⟨hc0, hd0⟩)
    constructor
    · rcases foldl_max_eq_or_mem ((s.data.filter Char.isDigit).map digitVal) 0 with h0 | hm
      · have hle : digitVal c0 ≤ ((s.data.filter Char.isDigit).map digitVal).foldl Nat.max 0 :=
          foldl_max_ge _ 0 _ hmem0
        rw [h0] at hle
        exact ⟨c0, hc0, hd0, by rw [hp, h0]; omega⟩
      · obtain ⟨c, hcf, hcd⟩ := List.mem_map.mp hm
        have hcs := List.mem_filter.mp hcf
        exact ⟨c, hcs.1, hcs.2, by rw [hp]; exact hcd.symm⟩
    · intro c hc hd
      rw [hp]
      exact foldl_max_ge _ 0 _ (List.mem_map_of_mem _ (List.mem_filter.mpr ⟨hc, hd⟩))
  · intro h1 h4
    have hnd : pyIsdigit s = false := by
      cases hdata : s.data with
      | nil => simp [pyIsdigit, hdata]
      | cons c cs =>
          rw [hdata] at h4
          simp only [List.any_cons, Bool.or_eq_false_iff] at h4
          simp [pyIsdigit, hdata, h4.1]
    rw [parse_max_phase, if_neg h1, if_neg (by simp [hnd]), if_neg (by simp [h4])]

/-- Witness for C2: one instance per branch ("all", pure digit string "234",
mixed string "2a4", digit-free string "x"). -/
theorem parse_max_phase_spec_witness :
    parse_max_phase "all" = MAX_PHASES ∧
    parse_max_phase "234" = pyInt "234" ∧
    ((∃ c, c ∈ "2a4".data ∧ c.isDigit = true ∧ parse_max_phase "2a4" = digitVal c) ∧
      (∀ c, c ∈ "2a4".data → c.isDigit = true → digitVal c ≤ parse_max_phase "2a4")) ∧
    parse_max_phase "x" = 1 :=
  ⟨(parse_max_phase_spec "all").1 rfl,
   (parse_max_phase_spec "234").2.1 (by decide) (by decide),
   (parse_max_phase_spec "2a4").2.2.1 (by decide) (by decide) (by decide),
   (parse_max_phase_spec "x").2.2.2 (by decide) (by decide)⟩

/-- Claim C9 counterexample: with repository name "r" and proposed directory
"r/r/x", one normalization yields "r/x" and normalizing that output again
yields "x" — so normalizing the output of normalization is NOT a no-op,
refuting the claim's "i.e." gloss at this concrete input. -/
theorem normalize_counterexample :
    normalize_working_directory ['r']
        (normalize_working_directory ['r'] ['r', '/', 'r', '/', 'x']) ≠
      normalize_working_directory ['r'] ['r', '/', 'r', '/', 'x'] := by decide

/-- Claim C9 amended: normalization strips exactly one leading
`"<repo-name>/"` prefix when present (prepending the prefix to the output
reconstructs the input) and leaves the input unchanged otherwise; it is
idempotent on input that does not begin with the prefix — but the output of a
strip may itself begin with the prefix and be stripped again. -/
theorem normalize_spec (repo_name working_dir : PyStr) :
    ((repo_name ++ ['/']).isPrefixOf working_dir = true →
      (repo_name ++ ['/']) ++ normalize_working_directory repo_name working_dir =
        working_dir) ∧
    ((repo_name ++ ['/']).isPrefixOf working_dir = false →
      normalize_working_directory repo_name working_dir = working_dir) ∧
    ((repo_name ++ ['/']).isPrefixOf working_dir = false →
      normalize_working_directory repo_name
          (normalize_working_directory repo_name working_dir) =
        normalize_working_directory repo_name working_dir) := by
  refine ⟨?_, ?_, ?_⟩
  · intro h
    obtain ⟨t, ht⟩ := List.isPrefixOf_iff_prefix.mp h
    subst ht
    unfold normalize_working_directory
    rw [if_pos h]
    have hlen : (repo_name ++ ['/']).length = repo_name.length + 1 := by simp
    rw [← hlen, List.drop_left]
  · intro h
    unfold normalize_working_directory
    rw [if_neg (by simp [h])]
  · intro h
    have h2 : normalize_working_directory repo_name working_dir = working_dir := by
      unfold normalize_working_directory
      rw [if_neg (by simp [h])]
    rw [h2]
    exact h2

/-- Witness for C9: stripping "r/" from "r/d" reconstructs "r/d", and "d"
(no prefix) is left unchanged. -/
theorem normalize_spec_witness :
    (['r'] ++ ['/']) ++ normalize_working_directory ['r'] ['r', '/', 'd'] =
        ['r', '/', 'd'] ∧
    normalize_working_directory ['r'] ['d'] = ['d'] :=
  ⟨(normalize_spec ['r'] ['r', '/', 'd']).1 (by decide),
   (normalize_spec ['r'] ['d']).2.1 (by decide)⟩

/-- Claim C8 counterexample: in apply mode, a successful CREATE of "f.md"
with content "A" followed by a successful UPDATE of the same file with
content "B" leaves "f.md" holding "B" — the created file does not end up with
its generated content, refuting the claimed round-trip as stated. -/
theorem phase3_roundtrip_counterexample :
    crA ∈ gCex.create_results ∧ crA.success = true ∧ crA.content = some "A" ∧
    fsGet (execute_phase3 (Except.ok gCex) true "wd" w0 r1Sample).1.fs
        (pathJoin "wd" crA.action_filename) = some "B" ∧
    ¬ (fsGet (execute_phase3 (Except.ok gCex) true "wd" w0 r1Sample).1.fs
        (pathJoin "wd" crA.action_filename) = some "A") := by decide

/-- Claim C8 amended: Phase 3 writes nothing in preview mode and annotates
`applied=False`; in apply mode it annotates `applied=True` and performs
exactly the apply trace, and every `success=True` CREATE result's filename
afterwards holds its generated content provided the last write to that path
in the apply step is that CREATE's write (the original claim fails when a
later successful write targets the same path). -/
theorem phase3_apply_spec (g : GenResults) (wd : String) (w : World) (r : Result) :
    ((execute_phase3 (Except.ok g) false wd w r).1 = w ∧
      (execute_phase3 (Except.ok g) false wd w r).2.generation_results =
        some { g with applied := some false }) ∧
    ((execute_phase3 (Except.ok g) true wd w r).2.generation_results =
        some { g with applied := some true } ∧
      (execute_phase3 (Except.ok g) true wd w r).1.log = w.log ++ applyTrace g wd ∧
      (∀ res, res ∈ g.create_results → res.success = true → pyTruthy res.content = true →
        lastWriteTo (applyTrace g wd) (pathJoin wd res.action_filename) =
          some (res.content.getD "") →
        fsGet (execute_phase3 (Except.ok g) true wd w r).1.fs
            (pathJoin wd res.action_filename) = some (res.content.getD ""))) := by
  have hph : execute_phase3 (Except.ok g) true wd w r =
      (apply_generated_content w g wd,
       { r with generation_results := some { g with applied := some true },
                generation_ready := true }) := by
    simp [execute_phase3]
  refine ⟨⟨?_, ?_⟩, ?_, ?_, ?_⟩
  · simp [execute_phase3]
  · simp [execute_phase3]
  · rw [hph]
  · rw [hph, apply_generated_content_spec]
  · intro res hres hsucc hcont hlast
    rw [hph]
    simp only [apply_generated_content_spec]
    exact fsGet_of_lastWriteTo _ _ _ _ hlast

/-- Witness for C8: in apply mode, a single successful CREATE of "new.md"
with content "hello" is found afterwards at its path with that content. -/
theorem phase3_apply_spec_witness :
    fsGet (execute_phase3 (Except.ok gWitness) true "wd" w0 r1Sample).1.fs
        (pathJoin "wd" crHello.action_filename) = some (crHello.content.getD "") :=
  (phase3_apply_spec gWitness "wd" w0 r1Sample).2.2.2 crHello (by decide) rfl (by decide)
    (by decide)

end ContentDeveloper
